import Mathlib

/-!
Verification of the fiszki database service (FastAPI + SQLAlchemy backend).

The development shallowly embeds the data model of models.py together with
the alembic initial schema (users and admins tables), and the request
handlers of main.py, as pure Lean functions over an explicit database
state.  Library calls of the source are represented as follows:

* bcrypt hashing (get_password_hash) and bcrypt verification
  (verify_password) are parameters of the handlers that use them, since
  bcrypt is an external library with a random salt;
* a SQLAlchemy session is the explicit DB value threaded through each
  handler; a handler returns its HTTP outcome together with the state of
  the database after the request;
* jose JWTs are records carrying the claims payload and the signing key;
  jwt.decode with the configured secret succeeds exactly when the key
  matches and the exp claim is not in the past (jose rejects a token
  whenever exp is strictly less than the current time, with zero leeway);
* HTTPException(status, detail) is the err constructor of HRes, and an
  unhandled Python exception (AttributeError, ValueError) is pyError.
-/

namespace Fiszki

/-- Row of the levels table (models.py, class Level): primary key
level_id and a level_name column with no unique constraint in the ORM
metadata. -/
structure Level where
  level_id : Nat
  level_name : String
deriving DecidableEq

/-- Row of the questions table (models.py, class Question). -/
structure Question where
  question_id : Nat
  level_id : Nat
  question : String
deriving DecidableEq

/-- Row of the answers table (models.py, class Answer). -/
structure Answer where
  answer_id : Nat
  question_id : Nat
  answer : String
  is_good : Int
deriving DecidableEq

/-- Row of the users table (alembic initial schema; attributes used by
main.py: user_id, login, password, progress). -/
structure User where
  user_id : Nat
  login : String
  password : String
  progress : Int
deriving DecidableEq

/-- Row of the admins table (alembic initial schema; attributes used by
main.py: id_admin, login, password). -/
structure Admin where
  id_admin : Nat
  login : String
  password : String
deriving DecidableEq

/-- The whole database state. -/
structure DB where
  levels : List Level
  questions : List Question
  answers : List Answer
  users : List User
  admins : List Admin
deriving DecidableEq

/-- Outcome of a request handler: a successful response body, an
HTTPException with status code and detail message, or an unhandled
Python exception. -/
inductive HRes (α : Type) where
  | ok : α → HRes α
  | err : Nat → String → HRes α
  | pyError : HRes α
deriving DecidableEq

/-- SQLite assigns a fresh integer primary key one greater than the
largest key in use. -/
def nextId (ids : List Nat) : Nat := ids.foldr max 0 + 1

/-! ### Input schemas (schemas.py) -/

/-- schemas.py class UserCreate (login inherited from UserBase). -/
structure UserCreate where
  login : String
  password : String
deriving DecidableEq

/-- schemas.py class UserResetPasswordIn. -/
structure UserResetPasswordIn where
  login : String
  code : String
  new_password : String
deriving DecidableEq

/-- schemas.py class UserChangePasswordIn: its only declared field is
new_password. -/
structure UserChangePasswordIn where
  new_password : String
deriving DecidableEq

/-- schemas.py class UserChangeLoginIn: its only declared field is
new_login. -/
structure UserChangeLoginIn where
  new_login : String
deriving DecidableEq

/-- schemas.py class LevelCreate. -/
structure LevelCreate where
  level_name : String
deriving DecidableEq

/-- schemas.py class LevelUpdate. -/
structure LevelUpdate where
  level_name : String
deriving DecidableEq

/-- schemas.py class QuestionCreate. -/
structure QuestionCreate where
  level_id : Nat
  question : String
deriving DecidableEq

/-- schemas.py class QuestionUpdate. -/
structure QuestionUpdate where
  question : String
deriving DecidableEq

/-- schemas.py class AnswerCreate. -/
structure AnswerCreate where
  question_id : Nat
  answer : String
  is_good : Int
deriving DecidableEq

/-- schemas.py class AnswerUpdate. -/
structure AnswerUpdate where
  answer : String
  is_good : Int
deriving DecidableEq

/-! ### User endpoints (main.py) -/

/-- Handler register_user of main.py, POST /user/register: look the
login up; if a row exists answer 400, otherwise insert a new User row
with the bcrypt hash of the submitted password and progress 0 and
return it.  The hash parameter stands for get_password_hash. -/
def register_user (hash : String → String) (db : DB) (data : UserCreate) :
    HRes User × DB :=
  match db.users.find? (fun u => u.login == data.login) with
  | some _ => (.err 400 "User already exists", db)
  | none =>
    let new_user : User :=
      { user_id := nextId (db.users.map User.user_id)
        login := data.login
        password := hash data.password
        progress := 0 }
    (.ok new_user, { db with users := db.users ++ [new_user] })

/-- Handler reset_password of main.py, POST /user/reset-password: the
submitted code is compared with the configured RESET_CODE before any
user lookup; a wrong code answers 400, a missing login 404, otherwise
the found user gets the bcrypt hash of the new password. -/
def reset_password (hash : String → String) (reset_code : String)
    (db : DB) (data : UserResetPasswordIn) : HRes User × DB :=
  if data.code ≠ reset_code then (.err 400 "Invalid reset code", db)
  else
    match db.users.find? (fun u => u.login == data.login) with
    | none => (.err 404 "User not found", db)
    | some u =>
      let u2 : User := { u with password := hash data.new_password }
      (.ok u2,
        { db with users := db.users.map (fun v => if v.user_id == u.user_id then u2 else v) })

/-! ### Generic list lookup lemmas -/

theorem find?_eq_none_of_forall {α : Type} (p : α → Bool) (l : List α)
    (h : ∀ x ∈ l, p x = false) : l.find? p = none := by
  rw [List.find?_eq_none]
  intro x hx
  simp [h x hx]

theorem exists_find?_of_mem {α : Type} (p : α → Bool) (l : List α)
    (h : ∃ x ∈ l, p x = true) : ∃ y, l.find? p = some y ∧ p y = true ∧ y ∈ l := by
  cases hf : l.find? p with
  | none =>
    rw [List.find?_eq_none] at hf
    obtain ⟨x, hx, hpx⟩ := h
    exact absurd hpx (hf x hx)
  | some y =>
    exact ⟨y, rfl, List.find?_some hf, List.mem_of_find?_eq_some hf⟩

/-! ### Claim C1 -/

/-- Claim C1: registering an existing login answers 400 and leaves the
user table unchanged; registering a fresh login appends exactly one new
User row carrying that login, the hash of the submitted password and
progress 0, and returns it. -/
theorem C1_register_user_spec (hash : String → String) (db : DB) (data : UserCreate) :
    ((∃ u ∈ db.users, u.login = data.login) →
      register_user hash db data = (.err 400 "User already exists", db)) ∧
    ((∀ u ∈ db.users, u.login ≠ data.login) →
      ∃ nu, register_user hash db data = (.ok nu, { db with users := db.users ++ [nu] }) ∧
        nu.login = data.login ∧ nu.password = hash data.password ∧ nu.progress = 0) := by
  constructor
  · intro h
    obtain ⟨y, hy, _, _⟩ := exists_find?_of_mem (fun u => u.login == data.login) db.users
      (by obtain ⟨u, hu, he⟩ := h; exact ⟨u, hu, by simp [he]⟩)
    simp only [register_user, hy]
  · intro h
    have hf : db.users.find? (fun u => u.login == data.login) = none :=
      find?_eq_none_of_forall _ _ (fun u hu => by simp [h u hu])
    refine ⟨{ user_id := nextId (db.users.map User.user_id), login := data.login,
              password := hash data.password, progress := 0 }, ?_, rfl, rfl, rfl⟩
    simp only [register_user, hf]

/-- Witness for C1 at a concrete database. -/
theorem C1_register_user_spec_witness :
    (∀ u ∈ (DB.mk [] [] [] [⟨1, "ala", "h1", 0⟩] []).users, u.login ≠ "ola") ∧
    ∃ nu,
      register_user (fun s => String.append "h:" s)
          (DB.mk [] [] [] [⟨1, "ala", "h1", 0⟩] []) ⟨"ola", "pw"⟩ =
        (.ok nu,
          { DB.mk [] [] [] [⟨1, "ala", "h1", 0⟩] [] with
            users := (DB.mk [] [] [] [⟨1, "ala", "h1", 0⟩] []).users ++ [nu] }) ∧
        nu.login = "ola" ∧ nu.password = (fun s => String.append "h:" s) "pw" ∧
        nu.progress = 0 := by
  refine ⟨by decide, ?_⟩
  exact (C1_register_user_spec (fun s => String.append "h:" s)
    (DB.mk [] [] [] [⟨1, "ala", "h1", 0⟩] []) ⟨"ola", "pw"⟩).2 (by decide)

/-! ### Claim C3 -/

/-- Claim C3: a reset-password request whose code differs from the
configured reset code answers 400 with the database unchanged, whatever
login it targets and whether or not that login exists; the code check
precedes the user lookup. -/
theorem C3_reset_password_wrong_code (hash : String → String) (reset_code : String)
    (db : DB) (data : UserResetPasswordIn) (h : data.code ≠ reset_code) :
    reset_password hash reset_code db data = (.err 400 "Invalid reset code", db) := by
  simp [reset_password, h]

/-- Witness for C3 at a concrete database and request. -/
theorem C3_reset_password_wrong_code_witness :
    reset_password (fun s => String.append "h:" s) "1111"
        (DB.mk [] [] [] [⟨1, "ala", "h1", 0⟩] []) ⟨"ala", "9999", "npw"⟩ =
      (.err 400 "Invalid reset code", DB.mk [] [] [] [⟨1, "ala", "h1", 0⟩] []) :=
  C3_reset_password_wrong_code (fun s => String.append "h:" s) "1111"
    (DB.mk [] [] [] [⟨1, "ala", "h1", 0⟩] []) ⟨"ala", "9999", "npw"⟩ (by decide)

/-! ### Admin CRUD handlers (main.py) -/

/-- Handler admin_create_level of main.py, POST /admin/levels: insert a
new Level row unconditionally.  The ORM metadata of models.py declares
no unique constraint on level_name and the handler performs no
duplicate check. -/
def admin_create_level (db : DB) (data : LevelCreate) : HRes Level × DB :=
  let new_level : Level :=
    { level_id := nextId (db.levels.map Level.level_id)
      level_name := data.level_name }
  (.ok new_level, { db with levels := db.levels ++ [new_level] })

/-- Handler admin_delete_level of main.py, DELETE /admin/levels: 404 if
the level is absent; otherwise delete the row.  The relationship
cascades of models.py (Level.questions and Question.answers, both
cascade all delete-orphan) also remove every Question of the level and
every Answer of those Questions. -/
def admin_delete_level (db : DB) (lid : Nat) : HRes String × DB :=
  match db.levels.find? (fun l => l.level_id == lid) with
  | none => (.err 404 "Level not found", db)
  | some _ =>
    let deleted_qids := (db.questions.filter (fun q => q.level_id == lid)).map Question.question_id
    (.ok "Level deleted",
      { db with
        levels := db.levels.filter (fun l => !(l.level_id == lid))
        questions := db.questions.filter (fun q => !(q.level_id == lid))
        answers := db.answers.filter (fun a => !(deleted_qids.contains a.question_id)) })

/-- Handler admin_create_question of main.py, POST /admin/questions:
404 if the referenced level is absent, otherwise insert one Question
row for that level and return it. -/
def admin_create_question (db : DB) (data : QuestionCreate) : HRes Question × DB :=
  match db.levels.find? (fun l => l.level_id == data.level_id) with
  | none => (.err 404 "Level not found", db)
  | some _ =>
    let new_question : Question :=
      { question_id := nextId (db.questions.map Question.question_id)
        level_id := data.level_id
        question := data.question }
    (.ok new_question, { db with questions := db.questions ++ [new_question] })

/-- Handler admin_create_answer of main.py, POST /admin/answers: 404 if
the referenced question is absent, otherwise insert one Answer row for
that question and return it. -/
def admin_create_answer (db : DB) (data : AnswerCreate) : HRes Answer × DB :=
  match db.questions.find? (fun q => q.question_id == data.question_id) with
  | none => (.err 404 "Question not found", db)
  | some _ =>
    let new_answer : Answer :=
      { answer_id := nextId (db.answers.map Answer.answer_id)
        question_id := data.question_id
        answer := data.answer
        is_good := data.is_good }
    (.ok new_answer, { db with answers := db.answers ++ [new_answer] })

/-! ### Claim C2 -/

/-- Claim C2: deleting an existing Level removes the Level row, every
Question referencing it and every Answer of those Questions, while
Levels and Questions with a different level_id, Answers of surviving
Questions, users and admins are untouched. -/
theorem C2_delete_level_cascade (db : DB) (lid : Nat)
    (h : ∃ l ∈ db.levels, l.level_id = lid) :
    ∃ db2, admin_delete_level db lid = (.ok "Level deleted", db2) ∧
      (∀ l, l ∈ db2.levels ↔ l ∈ db.levels ∧ l.level_id ≠ lid) ∧
      (∀ q, q ∈ db2.questions ↔ q ∈ db.questions ∧ q.level_id ≠ lid) ∧
      (∀ a, a ∈ db2.answers ↔ a ∈ db.answers ∧
        ¬ ∃ q ∈ db.questions, q.level_id = lid ∧ q.question_id = a.question_id) ∧
      db2.users = db.users ∧ db2.admins = db.admins := by
  obtain ⟨y, hy, _, _⟩ := exists_find?_of_mem (fun l => l.level_id == lid) db.levels
    (by obtain ⟨l, hl, he⟩ := h; exact ⟨l, hl, by simp [he]⟩)
  refine ⟨{ db with
      levels := db.levels.filter (fun l => !(l.level_id == lid))
      questions := db.questions.filter (fun q => !(q.level_id == lid))
      answers := db.answers.filter (fun a =>
        !(((db.questions.filter (fun q => q.level_id == lid)).map
            Question.question_id).contains a.question_id)) },
    by simp only [admin_delete_level, hy], ?_, ?_, ?_, rfl, rfl⟩
  · intro l
    simp [List.mem_filter]
  · intro q
    simp [List.mem_filter]
  · intro a
    simp only [List.mem_filter, Bool.not_eq_true', List.contains_eq_any_beq,
      List.any_eq_false, List.mem_map, List.mem_filter, beq_iff_eq,
      not_exists, not_and]
    constructor
    · rintro ⟨ha, hno⟩
      refine ⟨ha, ?_⟩
      intro q hq hql hqa
      exact absurd rfl (hno a.question_id ⟨q, ⟨hq, by simp [hql]⟩, hqa⟩)
    · rintro ⟨ha, hno⟩
      refine ⟨ha, ?_⟩
      rintro x ⟨q, ⟨hq, hql⟩, hqa⟩ hx
      exact hno q hq (by simpa using hql) (by rw [hqa, ← hx])

/-- Concrete two-level database used by the C2 witness. -/
def sampleDb : DB :=
  { levels := [⟨1, "weather"⟩, ⟨2, "colors"⟩]
    questions := [⟨1, 1, "sunny"⟩, ⟨2, 2, "red"⟩]
    answers := [⟨1, 1, "slonecznie", 1⟩, ⟨2, 2, "czerwony", 1⟩]
    users := []
    admins := [] }

/-- Witness for C2 at a concrete database with two levels. -/
theorem C2_delete_level_cascade_witness :
    (∃ l ∈ sampleDb.levels, l.level_id = 1) ∧
    ∃ db2, admin_delete_level sampleDb 1 = (.ok "Level deleted", db2) ∧
      (∀ l, l ∈ db2.levels ↔ l ∈ sampleDb.levels ∧ l.level_id ≠ 1) ∧
      (∀ q, q ∈ db2.questions ↔ q ∈ sampleDb.questions ∧ q.level_id ≠ 1) ∧
      (∀ a, a ∈ db2.answers ↔ a ∈ sampleDb.answers ∧
        ¬ ∃ q ∈ sampleDb.questions, q.level_id = 1 ∧ q.question_id = a.question_id) ∧
      db2.users = sampleDb.users ∧ db2.admins = sampleDb.admins := by
  refine ⟨⟨⟨1, "weather"⟩, by decide, rfl⟩, ?_⟩
  exact C2_delete_level_cascade sampleDb 1 ⟨⟨1, "weather"⟩, by decide, rfl⟩

/-! ### Claim C6 -/

/-- Claim C6: creating a Question answers 404 with the database
unchanged exactly when the referenced level_id matches no Level row,
and otherwise appends exactly one Question row referencing that level
and returns it; creating an Answer behaves the same way with respect to
the referenced question_id. -/
theorem C6_create_question_answer_parent_check (db : DB)
    (qd : QuestionCreate) (ad : AnswerCreate) :
    ((∀ l ∈ db.levels, l.level_id ≠ qd.level_id) →
      admin_create_question db qd = (.err 404 "Level not found", db)) ∧
    ((∃ l ∈ db.levels, l.level_id = qd.level_id) →
      ∃ q, admin_create_question db qd =
          (.ok q, { db with questions := db.questions ++ [q] }) ∧
        q.level_id = qd.level_id ∧ q.question = qd.question) ∧
    ((∀ qu ∈ db.questions, qu.question_id ≠ ad.question_id) →
      admin_create_answer db ad = (.err 404 "Question not found", db)) ∧
    ((∃ qu ∈ db.questions, qu.question_id = ad.question_id) →
      ∃ a, admin_create_answer db ad =
          (.ok a, { db with answers := db.answers ++ [a] }) ∧
        a.question_id = ad.question_id ∧ a.answer = ad.answer ∧
        a.is_good = ad.is_good) := by
  refine ⟨?_, ?_, ?_, ?_⟩
  · intro h
    have hf : db.levels.find? (fun l => l.level_id == qd.level_id) = none :=
      find?_eq_none_of_forall _ _ (fun l hl => by simp [h l hl])
    simp only [admin_create_question, hf]
  · intro h
    obtain ⟨y, hy, _, _⟩ := exists_find?_of_mem (fun l => l.level_id == qd.level_id)
      db.levels (by obtain ⟨l, hl, he⟩ := h; exact ⟨l, hl, by simp [he]⟩)
    refine ⟨{ question_id := nextId (db.questions.map Question.question_id)
              level_id := qd.level_id, question := qd.question }, ?_, rfl, rfl⟩
    simp only [admin_create_question, hy]
  · intro h
    have hf : db.questions.find? (fun q => q.question_id == ad.question_id) = none :=
      find?_eq_none_of_forall _ _ (fun q hq => by simp [h q hq])
    simp only [admin_create_answer, hf]
  · intro h
    obtain ⟨y, hy, _, _⟩ := exists_find?_of_mem (fun q => q.question_id == ad.question_id)
      db.questions (by obtain ⟨q, hq, he⟩ := h; exact ⟨q, hq, by simp [he]⟩)
    refine ⟨{ answer_id := nextId (db.answers.map Answer.answer_id)
              question_id := ad.question_id, answer := ad.answer
              is_good := ad.is_good }, ?_, rfl, rfl, rfl⟩
    simp only [admin_create_answer, hy]

/-- Witness for C6 at a concrete database: a missing level is refused
and an existing question accepts a new answer. -/
theorem C6_create_question_answer_parent_check_witness :
    ((∀ l ∈ sampleDb.levels, l.level_id ≠ 7) →
      admin_create_question sampleDb ⟨7, "rainy"⟩ =
        (.err 404 "Level not found", sampleDb)) ∧
    ((∃ qu ∈ sampleDb.questions, qu.question_id = 1) →
      ∃ a, admin_create_answer sampleDb ⟨1, "pochmurno", 0⟩ =
          (.ok a, { sampleDb with answers := sampleDb.answers ++ [a] }) ∧
        a.question_id = 1 ∧ a.answer = "pochmurno" ∧ a.is_good = 0) ∧
    (∀ l ∈ sampleDb.levels, l.level_id ≠ 7) ∧
    (∃ qu ∈ sampleDb.questions, qu.question_id = 1) := by
  refine ⟨(C6_create_question_answer_parent_check sampleDb ⟨7, "rainy"⟩
      ⟨1, "pochmurno", 0⟩).1,
    (C6_create_question_answer_parent_check sampleDb ⟨7, "rainy"⟩
      ⟨1, "pochmurno", 0⟩).2.2.2, by decide, ⟨⟨1, 1, "sunny"⟩, by decide, rfl⟩⟩

/-! ### Claim C8 -/

/-- Concrete database holding one level named colors, as created by the
models.py metadata (no unique constraint on level_name). -/
def dbWithColors : DB :=
  { levels := [⟨1, "colors"⟩], questions := [], answers := [], users := [], admins := [] }

/-- Claim C8 fails on the code: admin_create_question inserts without
any duplicate-name check and the models.py metadata carries no unique
constraint on level_name, so creating the level colors in a database
that already holds a level colors yields two Level rows with the same
name. -/
theorem C8_duplicate_level_name_created :
    ((admin_create_level dbWithColors ⟨"colors"⟩).2.levels.map Level.level_name) =
      ["colors", "colors"] := by
  decide

/-! ### Update handlers (main.py) -/

/-- Handler admin_update_level of main.py, PUT /admin/levels: look up
by primary key, 404 if absent, otherwise set level_name, commit and
return the updated row. -/
def admin_update_level (db : DB) (lid : Nat) (data : LevelUpdate) : HRes Level × DB :=
  match db.levels.find? (fun l => l.level_id == lid) with
  | none => (.err 404 "Level not found", db)
  | some l =>
    let l2 : Level := { l with level_name := data.level_name }
    (.ok l2, { db with levels := db.levels.map (fun x => if x.level_id == lid then l2 else x) })

/-- Handler admin_update_question of main.py, PUT /admin/questions:
look up by primary key, 404 if absent, otherwise set the question text,
commit and return the updated row. -/
def admin_update_question (db : DB) (qid : Nat) (data : QuestionUpdate) : HRes Question × DB :=
  match db.questions.find? (fun q => q.question_id == qid) with
  | none => (.err 404 "Question not found", db)
  | some q =>
    let q2 : Question := { q with question := data.question }
    (.ok q2, { db with questions := db.questions.map (fun x => if x.question_id == qid then q2 else x) })

/-- Handler admin_update_answer of main.py, PUT /admin/answers: look up
by primary key, 404 if absent, otherwise set answer and is_good, commit
and return the updated row. -/
def admin_update_answer (db : DB) (aid : Nat) (data : AnswerUpdate) : HRes Answer × DB :=
  match db.answers.find? (fun a => a.answer_id == aid) with
  | none => (.err 404 "Answer not found", db)
  | some a =>
    let a2 : Answer := { a with answer := data.answer, is_good := data.is_good }
    (.ok a2, { db with answers := db.answers.map (fun x => if x.answer_id == aid then a2 else x) })

/-- Handler update_user_progress_by_id of main.py, PUT
/user/user_id/progress: look up by primary key, 404 if absent,
otherwise set progress to the submitted value, commit and return the
updated row. -/
def update_user_progress_by_id (db : DB) (uid : Nat) (new_progress : Int) : HRes User × DB :=
  match db.users.find? (fun u => u.user_id == uid) with
  | none => (.err 404 "User not found", db)
  | some u =>
    let u2 : User := { u with progress := new_progress }
    (.ok u2, { db with users := db.users.map (fun x => if x.user_id == uid then u2 else x) })

/-- Handler admin_reset_progress of main.py, PUT
/admin/users/user_id/reset-progress: look up by primary key, 404 if
absent, otherwise set progress to 0, commit and return the updated
row. -/
def admin_reset_progress (db : DB) (uid : Nat) : HRes User × DB :=
  match db.users.find? (fun u => u.user_id == uid) with
  | none => (.err 404 "User not found", db)
  | some u =>
    let u2 : User := { u with progress := 0 }
    (.ok u2, { db with users := db.users.map (fun x => if x.user_id == uid then u2 else x) })

/-- Python attribute access on a validated UserChangePasswordIn
instance: pydantic populates exactly the fields declared in schemas.py,
so only new_password resolves and any other attribute raises
AttributeError (modelled by none). -/
def getattrUserChangePasswordIn (d : UserChangePasswordIn) (a : String) : Option String :=
  if a = "new_password" then some d.new_password else none

/-- Python attribute access on a validated UserChangeLoginIn instance:
only new_login resolves. -/
def getattrUserChangeLoginIn (d : UserChangeLoginIn) (a : String) : Option String :=
  if a = "new_login" then some d.new_login else none

/-- Handler change_password of main.py, PUT
/user/user_id/change-password: look up by primary key, 404 if absent;
then the source evaluates verify_password(data.old_password,
user.password), whose attribute access data.old_password is resolved
against UserChangePasswordIn; if it fails the request dies with an
unhandled AttributeError before any write.  The verify parameter stands
for verify_password and hash for get_password_hash. -/
def change_password (verify : String → String → Bool) (hash : String → String)
    (db : DB) (uid : Nat) (data : UserChangePasswordIn) : HRes User × DB :=
  match db.users.find? (fun u => u.user_id == uid) with
  | none => (.err 404 "User not found", db)
  | some u =>
    match getattrUserChangePasswordIn data "old_password" with
    | none => (.pyError, db)
    | some old =>
      if ¬ verify old u.password then (.err 400 "Invalid old password", db)
      else
        let u2 : User := { u with password := hash data.new_password }
        (.ok u2, { db with users := db.users.map (fun x => if x.user_id == uid then u2 else x) })

/-- Handler change_login of main.py, PUT /user/user_id/change-login:
look up by primary key, 404 if absent; then the source evaluates
verify_password(data.password, user.password), whose attribute access
data.password is resolved against UserChangeLoginIn; if it fails the
request dies with an unhandled AttributeError before any write. -/
def change_login (verify : String → String → Bool)
    (db : DB) (uid : Nat) (data : UserChangeLoginIn) : HRes User × DB :=
  match db.users.find? (fun u => u.user_id == uid) with
  | none => (.err 404 "User not found", db)
  | some u =>
    match getattrUserChangeLoginIn data "password" with
    | none => (.pyError, db)
    | some pw =>
      if ¬ verify pw u.password then (.err 400 "Invalid password", db)
      else
        match db.users.find? (fun v => v.login == data.new_login) with
        | some ex =>
          if ex.user_id ≠ uid then (.err 400 "Login already taken", db)
          else
            let u2 : User := { u with login := data.new_login }
            (.ok u2, { db with users := db.users.map (fun x => if x.user_id == uid then u2 else x) })
        | none =>
          let u2 : User := { u with login := data.new_login }
          (.ok u2, { db with users := db.users.map (fun x => if x.user_id == uid then u2 else x) })

/-! ### Claim C10 -/

/-- Claim C10: on any existing user, change_password reads the
attribute old_password which UserChangePasswordIn does not declare, and
change_login reads the attribute password which UserChangeLoginIn does
not declare, so both die with an unhandled attribute error and leave
the database unchanged. -/
theorem C10_change_handlers_attribute_error (verify : String → String → Bool)
    (hash : String → String) (db : DB) (uid : Nat)
    (d1 : UserChangePasswordIn) (d2 : UserChangeLoginIn)
    (h : ∃ u ∈ db.users, u.user_id = uid) :
    change_password verify hash db uid d1 = (.pyError, db) ∧
    change_login verify db uid d2 = (.pyError, db) := by
  obtain ⟨y, hy, _, _⟩ := exists_find?_of_mem (fun u => u.user_id == uid) db.users
    (by obtain ⟨u, hu, he⟩ := h; exact ⟨u, hu, by simp [he]⟩)
  constructor
  · simp [change_password, hy, getattrUserChangePasswordIn]
  · simp [change_login, hy, getattrUserChangeLoginIn]

/-- Witness for C10 at a concrete database holding user 1. -/
theorem C10_change_handlers_attribute_error_witness :
    change_password (fun p hp => hp == String.append "h:" p)
        (fun s => String.append "h:" s)
        (DB.mk [] [] [] [⟨1, "ala", "h:pw", 0⟩] []) 1 ⟨"npw"⟩ =
      (.pyError, DB.mk [] [] [] [⟨1, "ala", "h:pw", 0⟩] []) ∧
    change_login (fun p hp => hp == String.append "h:" p)
        (DB.mk [] [] [] [⟨1, "ala", "h:pw", 0⟩] []) 1 ⟨"ola"⟩ =
      (.pyError, DB.mk [] [] [] [⟨1, "ala", "h:pw", 0⟩] []) :=
  C10_change_handlers_attribute_error (fun p hp => hp == String.append "h:" p)
    (fun s => String.append "h:" s) (DB.mk [] [] [] [⟨1, "ala", "h:pw", 0⟩] [])
    1 ⟨"npw"⟩ ⟨"ola"⟩ ⟨⟨1, "ala", "h:pw", 0⟩, by decide, rfl⟩

/-! ### Claim C7 -/

/-- Sample stand-in for get_password_hash in concrete instantiations. -/
def sampleHash (s : String) : String := String.append "h:" s

/-- Sample stand-in for verify_password, matching sampleHash. -/
def sampleVerify (p hp : String) : Bool := hp == sampleHash p

/-- Claim C7 fails on the code as stated: change_password is an update
operation on the User resource, yet on a database holding user 1 it
answers with an unhandled attribute error instead of applying the
update, committing and returning the updated representation. -/
theorem C7_counterexample_change_password :
    ((DB.mk [] [] [] [⟨1, "ala", "h:pw", 0⟩] []).users.any
      (fun u => u.user_id == 1)) = true ∧
    change_password sampleVerify sampleHash
        (DB.mk [] [] [] [⟨1, "ala", "h:pw", 0⟩] []) 1 ⟨"npw"⟩ =
      (.pyError, DB.mk [] [] [] [⟨1, "ala", "h:pw", 0⟩] []) := by
  constructor
  · decide
  · simp [change_password, getattrUserChangePasswordIn, List.find?]

/-- Membership of the updated element after an in-place list update. -/
theorem mem_map_update {α : Type} (l : List α) (f : α → α) (p : α → Bool)
    {y : α} (hy : y ∈ l) (hpy : p y = true) :
    f y ∈ l.map (fun x => if p x then f x else x) := by
  have := List.mem_map_of_mem (fun x => if p x then f x else x) hy
  simpa [hpy] using this

/-- Membership of untouched elements after an in-place list update. -/
theorem mem_map_update_other {α : Type} (l : List α) (f : α → α) (p : α → Bool)
    {x : α} (hx : x ∈ l) (hpx : p x = false) :
    x ∈ l.map (fun z => if p z then f z else z) := by
  have := List.mem_map_of_mem (fun z => if p z then f z else z) hx
  simpa [hpx] using this

/-- Claim C7 amended: the update operations admin_update_level,
admin_update_question, admin_update_answer, update_user_progress_by_id
and admin_reset_progress each look the entity up by primary key, answer
404 with the database unchanged when it is absent, and otherwise apply
the schema-validated field updates, commit and return the updated
representation; the remaining update operations (change_password and
change_login, see C10) do not follow this pattern. -/
theorem C7_amended_update_pattern (db : DB) (lid qid aid uid : Nat)
    (ld : LevelUpdate) (qd : QuestionUpdate) (ad : AnswerUpdate) (np : Int) :
    ((∀ l ∈ db.levels, l.level_id ≠ lid) →
      admin_update_level db lid ld = (.err 404 "Level not found", db)) ∧
    ((∃ l ∈ db.levels, l.level_id = lid) →
      ∃ r db2, admin_update_level db lid ld = (.ok r, db2) ∧
        r.level_id = lid ∧ r.level_name = ld.level_name ∧ r ∈ db2.levels ∧
        (∀ x ∈ db.levels, x.level_id ≠ lid → x ∈ db2.levels) ∧
        db2.questions = db.questions ∧ db2.answers = db.answers ∧
        db2.users = db.users ∧ db2.admins = db.admins) ∧
    ((∀ q ∈ db.questions, q.question_id ≠ qid) →
      admin_update_question db qid qd = (.err 404 "Question not found", db)) ∧
    ((∃ q ∈ db.questions, q.question_id = qid) →
      ∃ r db2, admin_update_question db qid qd = (.ok r, db2) ∧
        r.question_id = qid ∧ r.question = qd.question ∧ r ∈ db2.questions ∧
        (∀ x ∈ db.questions, x.question_id ≠ qid → x ∈ db2.questions) ∧
        db2.levels = db.levels ∧ db2.answers = db.answers ∧
        db2.users = db.users ∧ db2.admins = db.admins) ∧
    ((∀ a ∈ db.answers, a.answer_id ≠ aid) →
      admin_update_answer db aid ad = (.err 404 "Answer not found", db)) ∧
    ((∃ a ∈ db.answers, a.answer_id = aid) →
      ∃ r db2, admin_update_answer db aid ad = (.ok r, db2) ∧
        r.answer_id = aid ∧ r.answer = ad.answer ∧ r.is_good = ad.is_good ∧
        r ∈ db2.answers ∧
        (∀ x ∈ db.answers, x.answer_id ≠ aid → x ∈ db2.answers) ∧
        db2.levels = db.levels ∧ db2.questions = db.questions ∧
        db2.users = db.users ∧ db2.admins = db.admins) ∧
    ((∀ u ∈ db.users, u.user_id ≠ uid) →
      update_user_progress_by_id db uid np = (.err 404 "User not found", db) ∧
      admin_reset_progress db uid = (.err 404 "User not found", db)) ∧
    ((∃ u ∈ db.users, u.user_id = uid) →
      (∃ r db2, update_user_progress_by_id db uid np = (.ok r, db2) ∧
        r.user_id = uid ∧ r.progress = np ∧ r ∈ db2.users ∧
        (∀ x ∈ db.users, x.user_id ≠ uid → x ∈ db2.users) ∧
        db2.levels = db.levels ∧ db2.questions = db.questions ∧
        db2.answers = db.answers ∧ db2.admins = db.admins) ∧
      (∃ r db2, admin_reset_progress db uid = (.ok r, db2) ∧
        r.user_id = uid ∧ r.progress = 0 ∧ r ∈ db2.users ∧
        (∀ x ∈ db.users, x.user_id ≠ uid → x ∈ db2.users) ∧
        db2.levels = db.levels ∧ db2.questions = db.questions ∧
        db2.answers = db.answers ∧ db2.admins = db.admins)) := by
  refine ⟨?_, ?_, ?_, ?_, ?_, ?_, ?_, ?_⟩
  · intro h
    have hf : db.levels.find? (fun l => l.level_id == lid) = none :=
      find?_eq_none_of_forall _ _ (fun l hl => by simp [h l hl])
    simp only [admin_update_level, hf]
  · intro h
    obtain ⟨y, hy, hpy, hmem⟩ := exists_find?_of_mem (fun l => l.level_id == lid)
      db.levels (by obtain ⟨l, hl, he⟩ := h; exact ⟨l, hl, by simp [he]⟩)
    refine ⟨{ y with level_name := ld.level_name },
      { db with levels := db.levels.map (fun x =>
          if x.level_id == lid then { y with level_name := ld.level_name } else x) },
      by simp only [admin_update_level, hy], by simpa using hpy, rfl,
      mem_map_update _ _ _ hmem hpy,
      fun x hx hne => mem_map_update_other _ _ _ hx (by simp [hne]),
      rfl, rfl, rfl, rfl⟩
  · intro h
    have hf : db.questions.find? (fun q => q.question_id == qid) = none :=
      find?_eq_none_of_forall _ _ (fun q hq => by simp [h q hq])
    simp only [admin_update_question, hf]
  · intro h
    obtain ⟨y, hy, hpy, hmem⟩ := exists_find?_of_mem (fun q => q.question_id == qid)
      db.questions (by obtain ⟨q, hq, he⟩ := h; exact ⟨q, hq, by simp [he]⟩)
    refine ⟨{ y with question := qd.question },
      { db with questions := db.questions.map (fun x =>
          if x.question_id == qid then { y with question := qd.question } else x) },
      by simp only [admin_update_question, hy], by simpa using hpy, rfl,
      mem_map_update _ _ _ hmem hpy,
      fun x hx hne => mem_map_update_other _ _ _ hx (by simp [hne]),
      rfl, rfl, rfl, rfl⟩
  · intro h
    have hf : db.answers.find? (fun a => a.answer_id == aid) = none :=
      find?_eq_none_of_forall _ _ (fun a ha => by simp [h a ha])
    simp only [admin_update_answer, hf]
  · intro h
    obtain ⟨y, hy, hpy, hmem⟩ := exists_find?_of_mem (fun a => a.answer_id == aid)
      db.answers (by obtain ⟨a, ha, he⟩ := h; exact ⟨a, ha, by simp [he]⟩)
    refine ⟨{ y with answer := ad.answer, is_good := ad.is_good },
      { db with answers := db.answers.map (fun x =>
          if x.answer_id == aid then { y with answer := ad.answer, is_good := ad.is_good } else x) },
      by simp only [admin_update_answer, hy], by simpa using hpy, rfl, rfl,
      mem_map_update _ _ _ hmem hpy,
      fun x hx hne => mem_map_update_other _ _ _ hx (by simp [hne]),
      rfl, rfl, rfl, rfl⟩
  · intro h
    have hf : db.users.find? (fun u => u.user_id == uid) = none :=
      find?_eq_none_of_forall _ _ (fun u hu => by simp [h u hu])
    exact ⟨by simp only [update_user_progress_by_id, hf],
      by simp only [admin_reset_progress, hf]⟩
  · intro h
    obtain ⟨y, hy, hpy, hmem⟩ := exists_find?_of_mem (fun u => u.user_id == uid)
      db.users (by obtain ⟨u, hu, he⟩ := h; exact ⟨u, hu, by simp [he]⟩)
    constructor
    · refine ⟨{ y with progress := np },
        { db with users := db.users.map (fun x =>
            if x.user_id == uid then { y with progress := np } else x) },
        by simp only [update_user_progress_by_id, hy], by simpa using hpy, rfl,
        mem_map_update _ _ _ hmem hpy,
        fun x hx hne => mem_map_update_other _ _ _ hx (by simp [hne]),
        rfl, rfl, rfl, rfl⟩
    · refine ⟨{ y with progress := 0 },
        { db with users := db.users.map (fun x =>
            if x.user_id == uid then { y with progress := 0 } else x) },
        by simp only [admin_reset_progress, hy], by simpa using hpy, rfl,
        mem_map_update _ _ _ hmem hpy,
        fun x hx hne => mem_map_update_other _ _ _ hx (by simp [hne]),
        rfl, rfl, rfl, rfl⟩

/-- Witness for the amended C7 at a concrete database. -/
theorem C7_amended_update_pattern_witness :
    ((∀ l ∈ sampleDb.levels, l.level_id ≠ 9) →
      admin_update_level sampleDb 9 ⟨"animals"⟩ = (.err 404 "Level not found", sampleDb)) ∧
    ((∃ u ∈ (DB.mk [] [] [] [⟨1, "ala", "h:pw", 3⟩] []).users, u.user_id = 1) →
      (∃ r db2, update_user_progress_by_id (DB.mk [] [] [] [⟨1, "ala", "h:pw", 3⟩] []) 1 7 =
          (.ok r, db2) ∧ r.user_id = 1 ∧ r.progress = 7 ∧ r ∈ db2.users ∧
        (∀ x ∈ (DB.mk [] [] [] [⟨1, "ala", "h:pw", 3⟩] []).users, x.user_id ≠ 1 → x ∈ db2.users) ∧
        db2.levels = (DB.mk [] [] [] [⟨1, "ala", "h:pw", 3⟩] []).levels ∧
        db2.questions = (DB.mk [] [] [] [⟨1, "ala", "h:pw", 3⟩] []).questions ∧
        db2.answers = (DB.mk [] [] [] [⟨1, "ala", "h:pw", 3⟩] []).answers ∧
        db2.admins = (DB.mk [] [] [] [⟨1, "ala", "h:pw", 3⟩] []).admins) ∧
      (∃ r db2, admin_reset_progress (DB.mk [] [] [] [⟨1, "ala", "h:pw", 3⟩] []) 1 =
          (.ok r, db2) ∧ r.user_id = 1 ∧ r.progress = 0 ∧ r ∈ db2.users ∧
        (∀ x ∈ (DB.mk [] [] [] [⟨1, "ala", "h:pw", 3⟩] []).users, x.user_id ≠ 1 → x ∈ db2.users) ∧
        db2.levels = (DB.mk [] [] [] [⟨1, "ala", "h:pw", 3⟩] []).levels ∧
        db2.questions = (DB.mk [] [] [] [⟨1, "ala", "h:pw", 3⟩] []).questions ∧
        db2.answers = (DB.mk [] [] [] [⟨1, "ala", "h:pw", 3⟩] []).answers ∧
        db2.admins = (DB.mk [] [] [] [⟨1, "ala", "h:pw", 3⟩] []).admins)) ∧
    (∀ l ∈ sampleDb.levels, l.level_id ≠ 9) ∧
    (∃ u ∈ (DB.mk [] [] [] [⟨1, "ala", "h:pw", 3⟩] []).users, u.user_id = 1) :=
  ⟨(C7_amended_update_pattern sampleDb 9 0 0 0 ⟨"animals"⟩ ⟨"q"⟩ ⟨"a", 0⟩ 0).1,
    (C7_amended_update_pattern (DB.mk [] [] [] [⟨1, "ala", "h:pw", 3⟩] [])
      0 0 0 1 ⟨"x"⟩ ⟨"q"⟩ ⟨"a", 0⟩ 7).2.2.2.2.2.2.2,
    by decide, ⟨⟨1, "ala", "h:pw", 3⟩, by decide, rfl⟩⟩

/-! ### Decimal printing and parsing

The source turns the admin id into a string with str and back with int.
These are modelled by toString and String.toNat?, and the following
lemmas establish that parsing inverts printing. -/

/-- Numeric value of a decimal digit character. -/
def charDigit (c : Char) : Nat := c.toNat - 48

theorem isDigit_digitChar {m : Nat} (h : m < 10) : (Nat.digitChar m).isDigit = true := by
  interval_cases m <;> decide

theorem charDigit_digitChar {m : Nat} (h : m < 10) : charDigit (Nat.digitChar m) = m := by
  interval_cases m <;> decide

/-- Every character the base-10 rendering loop places in front of an
all-digit accumulator is itself a digit. -/
theorem digits_of_toDigitsCore (fuel : Nat) :
    ∀ (n : Nat) (acc : List Char), (∀ c ∈ acc, c.isDigit = true) →
    ∀ c ∈ Nat.toDigitsCore 10 fuel n acc, c.isDigit = true := by
  induction fuel with
  | zero =>
    intro n acc hacc
    exact hacc
  | succ f ih =>
    intro n acc hacc c hc
    simp only [Nat.toDigitsCore] at hc
    by_cases h10 : n / 10 = 0
    · rw [if_pos h10] at hc
      rcases List.mem_cons.mp hc with rfl | hmem
      · exact isDigit_digitChar (Nat.mod_lt _ (by norm_num))
      · exact hacc c hmem
    · rw [if_neg h10] at hc
      refine ih (n / 10) (Nat.digitChar (n % 10) :: acc) ?_ c hc
      intro d hd
      rcases List.mem_cons.mp hd with rfl | hmem
      · exact isDigit_digitChar (Nat.mod_lt _ (by norm_num))
      · exact hacc d hmem

/-- The rendering loop strictly lengthens its accumulator whenever it
has fuel, so a rendered number is never the empty string. -/
theorem length_toDigitsCore (fuel : Nat) :
    ∀ (n : Nat) (acc : List Char), 0 < fuel →
    acc.length < (Nat.toDigitsCore 10 fuel n acc).length := by
  induction fuel with
  | zero =>
    intro n acc h
    omega
  | succ f ih =>
    intro n acc _
    simp only [Nat.toDigitsCore]
    by_cases h10 : n / 10 = 0
    · rw [if_pos h10]
      simp
    · rw [if_neg h10]
      rcases Nat.eq_zero_or_pos f with rfl | hf
      · simp [Nat.toDigitsCore]
      · have := ih (n / 10) (Nat.digitChar (n % 10) :: acc) hf
        simp only [List.length_cons] at this
        omega

/-- Folding the decimal evaluation step over the rendering of n and
then over a tail accumulator shifts the running value one decimal place
per rendered digit (the rendering of n has Nat.log 10 n + 1 digits) and
adds n. -/
theorem foldl_toDigitsCore (fuel : Nat) :
    ∀ (n : Nat) (acc : List Char) (v : Nat), n < fuel →
    (Nat.toDigitsCore 10 fuel n acc).foldl (fun a c => a * 10 + charDigit c) v =
      acc.foldl (fun a c => a * 10 + charDigit c) (v * 10 ^ (Nat.log 10 n + 1) + n) := by
  induction fuel with
  | zero =>
    intro n acc v h
    omega
  | succ f ih =>
    intro n acc v hn
    simp only [Nat.toDigitsCore]
    by_cases h10 : n / 10 = 0
    · rw [if_pos h10]
      have hlt : n < 10 := by omega
      have hlog : Nat.log 10 n = 0 := Nat.log_eq_zero_iff.mpr (Or.inl hlt)
      simp only [List.foldl_cons, Nat.mod_eq_of_lt hlt, charDigit_digitChar hlt,
        hlog, zero_add, pow_one]
    · rw [if_neg h10]
      have hrec : n / 10 < f := by
        have hpos : 0 < n := by omega
        have := Nat.div_lt_self hpos (by norm_num : (1:Nat) < 10)
        omega
      rw [ih (n / 10) _ v hrec]
      simp only [List.foldl_cons, charDigit_digitChar (Nat.mod_lt n (by norm_num))]
      have hge : 10 ≤ n := by omega
      have hpos := Nat.log_pos (by norm_num : (1:Nat) < 10) hge
      have hlog : Nat.log 10 n = Nat.log 10 (n / 10) + 1 := by
        rw [Nat.log_div_base]
        omega
      have hseed : (v * 10 ^ (Nat.log 10 (n / 10) + 1) + n / 10) * 10 + n % 10 =
          v * 10 ^ (Nat.log 10 n + 1) + n := by
        rw [hlog, pow_succ 10 (Nat.log 10 (n / 10) + 1)]
        calc (v * 10 ^ (Nat.log 10 (n / 10) + 1) + n / 10) * 10 + n % 10
            = v * (10 ^ (Nat.log 10 (n / 10) + 1) * 10) + (10 * (n / 10) + n % 10) := by
              ring
          _ = v * (10 ^ (Nat.log 10 (n / 10) + 1) * 10) + n := by
              rw [Nat.div_add_mod]
      rw [hseed]

/-- The int parse of main.py inverts the str rendering: reading back
the printed form of a natural number yields the number. -/
theorem toNat?_of_toString (n : Nat) : (toString n).toNat? = some n := by
  have hts : toString n = String.mk (Nat.toDigitsCore 10 (n + 1) n []) := rfl
  have hne : Nat.toDigitsCore 10 (n + 1) n [] ≠ [] := by
    have hlen := length_toDigitsCore (n + 1) n [] (Nat.succ_pos n)
    intro hcontra
    rw [hcontra] at hlen
    simp at hlen
  have hdig : ∀ c ∈ Nat.toDigitsCore 10 (n + 1) n [], c.isDigit = true :=
    digits_of_toDigitsCore (n + 1) n [] (by intro c hc; cases hc)
  have hval : (Nat.toDigitsCore 10 (n + 1) n []).foldl
      (fun a c => a * 10 + charDigit c) 0 = n := by
    rw [foldl_toDigitsCore (n + 1) n [] 0 (Nat.lt_succ_self n)]
    simp
  have hempty : (String.mk (Nat.toDigitsCore 10 (n + 1) n [])).isEmpty = false := by
    rw [Bool.eq_false_iff]
    intro hcontra
    rw [String.isEmpty_iff] at hcontra
    exact hne (by simpa using congrArg String.data hcontra)
  have hall : (String.mk (Nat.toDigitsCore 10 (n + 1) n [])).all Char.isDigit = true := by
    rw [String.all_eq, List.all_eq_true]
    exact hdig
  have hnat : (String.mk (Nat.toDigitsCore 10 (n + 1) n [])).isNat = true := by
    simp [String.isNat, hempty, hall]
  have hfun : (fun (a : Nat) (c : Char) => a * 10 + (c.toNat - Char.toNat '0')) =
      (fun (a : Nat) (c : Char) => a * 10 + charDigit c) := by
    funext a c
    simp [charDigit]
  rw [hts]
  unfold String.toNat?
  rw [if_pos hnat, String.foldl_eq, hfun, hval]

/-! ### JWT model (main.py) -/

/-- Default token signing secret of main.py. -/
def SECRET_KEY : String := "jnUubi5NNKDkRd2neldQRikDcOeQ5MagGnRvsxki7sQ"

/-- The claims payload of a JWT as used here: optional sub and role
claims and the exp claim in seconds. -/
structure JwtPayload where
  sub : Option String
  role : Option String
  exp : Int
deriving DecidableEq

/-- A JWT: its claims payload plus the key it was signed with. -/
structure JwtToken where
  payload : JwtPayload
  key : String
deriving DecidableEq

/-- The dict passed to create_access_token by admin_login. -/
structure TokenData where
  sub : Option String
  role : Option String
deriving DecidableEq

/-- Function create_access_token of main.py: copy the data claims, add
an exp claim now plus the requested delta (12 hours when none is
given), and sign with SECRET_KEY. -/
def create_access_token (data : TokenData) (now : Int) (expires_delta : Option Int) : JwtToken :=
  { payload := { sub := data.sub, role := data.role, exp := now + expires_delta.getD (12 * 3600) }
    key := SECRET_KEY }

/-- jose jwt.decode with SECRET_KEY: the payload is returned when the
signature verifies (the signing key matches) and the token is not
expired; jose raises ExpiredSignatureError exactly when the exp claim
is strictly less than the current time (zero leeway). -/
def jwt_decode (token : JwtToken) (now : Int) : Option JwtPayload :=
  if token.key = SECRET_KEY ∧ ¬ token.payload.exp < now then some token.payload else none

/-- Dependency get_current_admin of main.py, guarding every
admin-prefixed endpoint: decode the bearer token, answer 401 when
decoding fails, when the sub claim is missing or when the role claim is
not admin; otherwise return int(sub) as the admin id (a non-numeric sub
would raise ValueError, modelled by pyError). -/
def get_current_admin (token : JwtToken) (now : Int) : HRes Nat :=
  match jwt_decode token now with
  | none => .err 401 "Could not validate credentials"
  | some payload =>
    match payload.sub with
    | none => .err 401 "Could not validate credentials"
    | some s =>
      if payload.role ≠ some "admin" then .err 401 "Could not validate credentials"
      else
        match s.toNat? with
        | some i => .ok i
        | none => .pyError

/-- Handler admin_login of main.py, POST /admin/login: check the
submitted credentials against the stored Admin row with bcrypt, answer
401 on failure, and otherwise issue a token whose sub is the admin id
as a string and whose role is admin, expiring after the configured
number of minutes. -/
def admin_login (verify : String → String → Bool) (db : DB)
    (username pw : String) (now : Int) (expire_minutes : Int) : HRes JwtToken :=
  match db.admins.find? (fun a => a.login == username) with
  | none => .err 401 "Invalid admin credentials"
  | some a =>
    if verify pw a.password then
      .ok (create_access_token ⟨some (toString a.id_admin), some "admin"⟩ now
        (some (expire_minutes * 60)))
    else .err 401 "Invalid admin credentials"

/-! ### Claim C4 -/

/-- Claim C4: a token carrying sub set to an admin id and role admin,
as admin_login has create_access_token issue it, is accepted by
get_current_admin with that admin id at every time strictly before its
expiry instant, and answers 401 at every time strictly after it. -/
theorem C4_token_valid_until_expiry (id : Nat) (now delta t : Int) :
    (t < (create_access_token ⟨some (toString id), some "admin"⟩ now (some delta)).payload.exp →
      get_current_admin (create_access_token ⟨some (toString id), some "admin"⟩ now (some delta)) t =
        .ok id) ∧
    ((create_access_token ⟨some (toString id), some "admin"⟩ now (some delta)).payload.exp < t →
      get_current_admin (create_access_token ⟨some (toString id), some "admin"⟩ now (some delta)) t =
        .err 401 "Could not validate credentials") := by
  constructor
  · intro h
    have hne : ¬ (now + delta < t) := by
      simp only [create_access_token, Option.getD_some] at h
      omega
    have hdec : jwt_decode (create_access_token ⟨some (toString id), some "admin"⟩ now
        (some delta)) t = some { sub := some (toString id), role := some "admin", exp := now + delta } := by
      simp [jwt_decode, create_access_token, hne]
    simp [get_current_admin, hdec, toNat?_of_toString]
  · intro h
    have : ¬ ((create_access_token ⟨some (toString id), some "admin"⟩ now
        (some delta)).key = SECRET_KEY ∧
        ¬ (create_access_token ⟨some (toString id), some "admin"⟩ now
          (some delta)).payload.exp < t) := by
      intro hc
      exact hc.2 h
    simp only [get_current_admin, jwt_decode, if_neg this]

/-- Witness for C4 at a concrete admin id and concrete times. -/
theorem C4_token_valid_until_expiry_witness :
    (100 < (create_access_token ⟨some (toString 7), some "admin"⟩ 0 (some 3600)).payload.exp ∧
      get_current_admin (create_access_token ⟨some (toString 7), some "admin"⟩ 0 (some 3600)) 100 =
        .ok 7) ∧
    ((create_access_token ⟨some (toString 7), some "admin"⟩ 0 (some 3600)).payload.exp < 5000 ∧
      get_current_admin (create_access_token ⟨some (toString 7), some "admin"⟩ 0 (some 3600)) 5000 =
        .err 401 "Could not validate credentials") :=
  ⟨⟨by decide, (C4_token_valid_until_expiry 7 0 3600 100).1 (by decide)⟩,
    ⟨by decide, (C4_token_valid_until_expiry 7 0 3600 5000).2 (by decide)⟩⟩

/-! ### Claim C5 -/

/-- Claim C5: get_current_admin answers 401 whenever signature or
expiry verification fails, whenever the role claim is not admin and
whenever the sub claim is missing; it accepts only when all three
checks pass, and then returns the parsed sub claim as the admin id. -/
theorem C5_get_current_admin_checks (token : JwtToken) (now : Int) :
    ((token.key ≠ SECRET_KEY ∨ token.payload.exp < now) →
      get_current_admin token now = .err 401 "Could not validate credentials") ∧
    (token.payload.role ≠ some "admin" →
      get_current_admin token now = .err 401 "Could not validate credentials") ∧
    (token.payload.sub = none →
      get_current_admin token now = .err 401 "Could not validate credentials") ∧
    (∀ i, get_current_admin token now = .ok i →
      token.key = SECRET_KEY ∧ ¬ token.payload.exp < now ∧
      token.payload.role = some "admin" ∧
      ∃ s, token.payload.sub = some s ∧ s.toNat? = some i) := by
  by_cases hk : token.key = SECRET_KEY ∧ ¬ token.payload.exp < now
  · have hdec : jwt_decode token now = some token.payload := by
      simp [jwt_decode, hk]
    refine ⟨?_, ?_, ?_, ?_⟩
    · rintro (h | h)
      · exact absurd hk.1 h
      · exact absurd h hk.2
    · intro hrole
      cases hsub : token.payload.sub with
      | none => simp [get_current_admin, hdec, hsub]
      | some s => simp [get_current_admin, hdec, hsub, hrole]
    · intro hsub
      simp [get_current_admin, hdec, hsub]
    · intro i hok
      cases hsub : token.payload.sub with
      | none => simp [get_current_admin, hdec, hsub] at hok
      | some s =>
        by_cases hrole : token.payload.role = some "admin"
        · cases hn : s.toNat? with
          | none => simp [get_current_admin, hdec, hsub, hrole, hn] at hok
          | some j =>
            simp [get_current_admin, hdec, hsub, hrole, hn] at hok
            exact ⟨hk.1, hk.2, hrole, s, rfl, by rw [hn, hok]⟩
        · simp [get_current_admin, hdec, hsub, hrole] at hok
  · have hdec : jwt_decode token now = none := by
      simp only [jwt_decode, if_neg hk]
    have h401 : get_current_admin token now = .err 401 "Could not validate credentials" := by
      simp [get_current_admin, hdec]
    exact ⟨fun _ => h401, fun _ => h401, fun _ => h401,
      fun i hok => absurd (h401 ▸ hok) (by simp)⟩

/-- Witness for C5: a token signed with a foreign key is refused, and a
well-formed admin token is accepted with its sub as admin id. -/
theorem C5_get_current_admin_checks_witness :
    ((JwtToken.mk ⟨some "7", some "admin", 1000⟩ "other-key").key ≠ SECRET_KEY ∨
      (JwtToken.mk ⟨some "7", some "admin", 1000⟩ "other-key").payload.exp < 5) ∧
    get_current_admin (JwtToken.mk ⟨some "7", some "admin", 1000⟩ "other-key") 5 =
      .err 401 "Could not validate credentials" ∧
    ((JwtToken.mk ⟨some "7", some "user", 1000⟩ SECRET_KEY).payload.role ≠ some "admin") ∧
    get_current_admin (JwtToken.mk ⟨some "7", some "user", 1000⟩ SECRET_KEY) 5 =
      .err 401 "Could not validate credentials" := by
  refine ⟨Or.inl (by decide), ?_, by decide, ?_⟩
  · exact (C5_get_current_admin_checks
      (JwtToken.mk ⟨some "7", some "admin", 1000⟩ "other-key") 5).1 (Or.inl (by decide))
  · exact (C5_get_current_admin_checks
      (JwtToken.mk ⟨some "7", some "user", 1000⟩ SECRET_KEY) 5).2.1 (by decide)

/-! ### Claim C9 -/

/-- The class definitions of schemas.py in source order, as pairs of
class name and declared field names (UserCreate lists the login field
it inherits from UserBase).  The name UserOut is defined twice: first
with fields user_id, login, progress, and later with fields user_id,
login, password, progress. -/
def schemas_module_classes : List (String × List String) :=
  [("AnswerOut", ["answer_id", "answer", "is_good"]),
   ("QuestionOut", ["question_id", "question", "answers"]),
   ("LevelOut", ["level_id", "level_name"]),
   ("AdminLoginIn", ["login", "password"]),
   ("LevelCreate", ["level_name"]),
   ("LevelUpdate", ["level_name"]),
   ("AdminLevelOut", ["level_id", "level_name", "questions_count"]),
   ("QuestionCreate", ["level_id", "question"]),
   ("QuestionUpdate", ["question"]),
   ("AnswerCreate", ["question_id", "answer", "is_good"]),
   ("AnswerUpdate", ["answer", "is_good"]),
   ("UserOut", ["user_id", "login", "progress"]),
   ("UserBase", ["login"]),
   ("UserCreate", ["login", "password"]),
   ("UserUpdate", ["login", "password"]),
   ("UserOut", ["user_id", "login", "password", "progress"]),
   ("UserLoginIn", ["login", "password"]),
   ("UserChangePasswordIn", ["new_password"]),
   ("UserChangeLoginIn", ["new_login"]),
   ("UserResetPasswordIn", ["login", "code", "new_password"]),
   ("Token", ["access_token", "token_type"])]

/-- Python module namespace semantics: executing the class statements
in order, a later definition rebinds the name, so the binding a name
receives is the last definition carrying it. -/
def module_binding (defs : List (String × List String)) (n : String) : Option (List String) :=
  defs.foldl (fun acc d => if d.1 = n then some d.2 else acc) none

/-- JSON scalar values appearing in serialized User rows. -/
inductive JVal where
  | s : String → JVal
  | i : Int → JVal
deriving DecidableEq

/-- Attribute lookup that pydantic from_attributes performs on a User
ORM row when filling a response model field. -/
def user_attr (u : User) (f : String) : Option JVal :=
  if f = "user_id" then some (.i u.user_id)
  else if f = "login" then some (.s u.login)
  else if f = "password" then some (.s u.password)
  else if f = "progress" then some (.i u.progress)
  else none

/-- Serialization of a User row under the response model that the name
UserOut denotes in main.py, namely the last definition of UserOut in
schemas.py. -/
def serialize_user_out (u : User) : List (String × JVal) :=
  ((module_binding schemas_module_classes "UserOut").getD []).filterMap
    (fun f => (user_attr u f).map (fun v => (f, v)))

/-- Handler get_user_by_id of main.py, GET /user/user_id, composed with
the response_model UserOut serialization that FastAPI applies to the
returned row. -/
def get_user_by_id (db : DB) (uid : Nat) : HRes (List (String × JVal)) :=
  match db.users.find? (fun u => u.user_id == uid) with
  | none => .err 404 "User not found"
  | some u => .ok (serialize_user_out u)

/-- Claim C9: the name UserOut ends up bound to the second definition,
whose fields include password, so serializing any User row under
UserOut emits the stored password hash, and in particular the body
returned by get_user_by_id for a found user contains it. -/
theorem C9_user_out_exposes_password :
    module_binding schemas_module_classes "UserOut" =
      some ["user_id", "login", "password", "progress"] ∧
    (∀ u : User, ("password", JVal.s u.password) ∈ serialize_user_out u) ∧
    (∀ db uid u, db.users.find? (fun x => x.user_id == uid) = some u →
      get_user_by_id db uid = .ok (serialize_user_out u) ∧
      ("password", JVal.s u.password) ∈ serialize_user_out u) := by
  refine ⟨by decide, ?_, ?_⟩
  · intro u
    simp [serialize_user_out, module_binding, schemas_module_classes, user_attr]
  · intro db uid u h
    refine ⟨by simp [get_user_by_id, h], ?_⟩
    simp [serialize_user_out, module_binding, schemas_module_classes, user_attr]

/-- Witness for C9 at a concrete database holding one user. -/
theorem C9_user_out_exposes_password_witness :
    get_user_by_id (DB.mk [] [] [] [⟨1, "ala", "h:pw", 0⟩] []) 1 =
      .ok (serialize_user_out ⟨1, "ala", "h:pw", 0⟩) ∧
    ("password", JVal.s "h:pw") ∈ serialize_user_out ⟨1, "ala", "h:pw", 0⟩ :=
  (C9_user_out_exposes_password.2.2 (DB.mk [] [] [] [⟨1, "ala", "h:pw", 0⟩] [])
    1 ⟨1, "ala", "h:pw", 0⟩ (by decide))

end Fiszki
